import Mathlib

/-!
Verification development for the DOOM NewGame+ customizer core
(src/datalib/elements.py, src/datalib/modules.py, src/datalib/inventory.py
and the inventory-mutating callbacks of src/app.py).

Modelling conventions.
* Every Python dataclass in the InventoryElement hierarchy only adds fields,
  and all instances carry all fields, so the whole hierarchy is embedded as
  one structure `Element` together with a `variant` tag naming the concrete
  class; method dispatch on the class becomes a match on the tag.
* Python dict values in an element `data` mapping are either strings or
  ints: type `Value`.  Python dicts preserve insertion order, so `data`
  is an ordered association list.
* A module catalog entry is a class attribute holding a mutable object that
  is aliased by the module `available` list.  We therefore model a module
  as a store: `catalog` maps attribute names to element values, and
  `available` is the list of names of the selected entries, in insertion
  order.  Mutating a member object becomes updating the store at its name.
* `hasattr`/`getattr` can also hit non-element attributes (methods,
  `moduleName`, `elementType`, `available`); their names are listed in
  `metaAttrs`.  Wherever the source guards with a `type(x) is T` or
  `isinstance` test, a non-element attribute fails that test, so those
  branches collapse to the catalog-miss branch; the places where the source
  touches the attribute before any type test (and so can raise
  AttributeError) are modelled with `Except`.
* Long prose fields (descriptions, display names, UI category labels) are
  never read by any modelled operation and never decide an equality (all
  entries already differ in `name` and `path`), so they are left at `none`
  in the catalog data below.
-/

inductive Variant where
  | argentPerk
  | praetorPerk
  | runePerk
  | weaponModPerk
  | equipmentItem
  | weaponItem
  | ammoItem
deriving DecidableEq

inductive Value where
  | s (str : String)
  | i (int : Int)
deriving DecidableEq

/-- Shared field record for the InventoryElement class hierarchy of
elements.py; `variant` names the concrete dataclass. -/
structure Element where
  variant : Variant
  name : String
  path : String
  data : List (String × Value) := []
  equip : Option Bool := none
  count : Option Int := none
  applicableWeapon : Option String := none
  applicableMod : Option String := none
  applyUpgradesForPerk : Option Bool := none
  isRune : Option Bool := none
  runePermanentEquip : Option Bool := none
  unlockable : Option String := none
  applyAfterLoadout : Option Bool := none
  ammoType : Option String := none
  equipReserve : Option Bool := none
deriving DecidableEq

/-- Python truthiness of an optional bool field (None is falsy). -/
def pyTruthyB (b : Option Bool) : Bool :=
  match b with
  | some v => v
  | none => false

/-- Python truthiness of an optional string field (None and the empty
string are falsy). -/
def pyTruthyS (s : Option String) : Bool :=
  match s with
  | some v => v ≠ ""
  | none => false

/-- Python `str(x).lower()` for an optional bool. -/
def pyStrLower (b : Option Bool) : String :=
  match b with
  | some true => "true"
  | some false => "false"
  | none => "none"

/-- Python int rendering of the `count` field (an int in every concrete
class that renders it, so `none` is unreachable there). -/
def pyCount (c : Option Int) : Int := c.getD 0

/-- `updateData` of elements.py: one method per concrete class, dispatched
here on the variant tag.  It rebuilds `data` from the other fields and
touches nothing else. -/
def updateData (e : Element) : Element :=
  match e.variant with
  | .argentPerk =>
    if e.name ≠ "ammoCapacity" then
      { e with data := [("perk", .s e.path), ("count", .i (pyCount e.count)),
        ("equip", .s "true"), ("remove_after_equip", .s "true")] }
    else
      { e with data := [("perk", .s e.path), ("count", .i (pyCount e.count)),
        ("equip", .s "true"), ("applyAfterLoadout", .s "true"),
        ("remove_after_equip", .s "true")] }
  | .praetorPerk =>
    if pyTruthyS e.unlockable then
      { e with data := [("perk", .s e.path),
        ("unlockable", .s (e.unlockable.getD "")), ("equip", .s "true")] }
    else
      { e with data := [("perk", .s e.path), ("equip", .s "true")] }
  | .runePerk =>
    if pyTruthyB e.runePermanentEquip then
      { e with data := [("perk", .s e.path),
        ("applyUpgradesForPerk", .s (pyStrLower e.applyUpgradesForPerk)),
        ("equip", .s "true")] }
    else
      { e with data := [("perk", .s e.path),
        ("applyUpgradesForPerk", .s (pyStrLower e.applyUpgradesForPerk)),
        ("isRune", .s "true")] }
  | .weaponModPerk =>
    if e.applicableMod = some "isBaseMod" then
      { e with data := [("perk", .s e.path)] }
    else
      { e with data := [("perk", .s e.path), ("equip", .s "true")] }
  | .equipmentItem =>
    if pyTruthyB e.equip then
      { e with data := [("item", .s e.path), ("equip", .s "true")] }
    else
      { e with data := [("item", .s e.path)] }
  | .weaponItem =>
    if pyTruthyB e.equip then
      { e with data := [("item", .s e.path), ("equip", .s "true")] }
    else if pyTruthyB e.equipReserve then
      { e with data := [("item", .s e.path), ("equip_reserve", .s "true")] }
    else
      { e with data := [("item", .s e.path)] }
  | .ammoItem =>
    { e with data := [("item", .s e.path), ("count", .i (pyCount e.count)),
      ("applyAfterLoadout", .s "true")] }

/-- An InventoryModule of modules.py, as a store (see header). -/
structure InvModule where
  moduleName : String
  elementType : Variant
  catalog : List (String × Element)
  available : List String
  metaAttrs : List String
deriving DecidableEq

/-- `getattr`-style resolution of an attribute name to the element
stored in a catalog (None when the name denotes no catalog member). -/
def catFind (cat : List (String × Element)) (n : String) : Option Element :=
  match cat with
  | [] => none
  | kv :: rest => if kv.1 = n then some kv.2 else catFind rest n

/-- Mutation of the member object stored at attribute name `n`. -/
def catUpdate (cat : List (String × Element)) (n : String)
    (f : Element → Element) : List (String × Element) :=
  cat.map (fun kv => if kv.1 = n then (kv.1, f kv.2) else kv)

/-- Python `element in self.available`: the list holds object references,
compared by dataclass field equality (identity implies equality). -/
def containsElem (m : InvModule) (e : Element) : Bool :=
  m.available.any (fun n => catFind m.catalog n == some e)

/-- `InventoryModule.addToAvailable` (modules.py:33): looks the attribute
up, appends if it is a not-yet-present element of the module element
type.  A hit on a non-element attribute fails the `type(element) is
self.elementType` test, so both miss cases collapse to a no-op. -/
def addToAvailable (m : InvModule) (inventoryElementName : String) : InvModule :=
  match catFind m.catalog inventoryElementName with
  | some element =>
    if element.variant = m.elementType ∧ ¬ containsElem m element then
      { m with available := m.available ++ [inventoryElementName] }
    else m
  | none => m

/-- `InventoryModule.updateModuleData` (modules.py:27): calls
`updateData` on every available entry, in list order; through the store
this updates the catalog at each available name. -/
def updateModuleData (m : InvModule) : InvModule :=
  { m with catalog :=
      m.available.foldl (fun cat n => catUpdate cat n updateData) m.catalog }

/-- `WeaponMods.addToAvailable` (modules.py:457): unlike the base class
it reads `mod.applicableWeapon` before any type check, so a name hitting
a non-element attribute raises AttributeError. -/
def weaponModsAddToAvailable (m : InvModule) (applicableWeapon : String)
    (modName : String) : Except String InvModule :=
  match catFind m.catalog modName with
  | some mod =>
    .ok (if mod.applicableWeapon = some applicableWeapon ∧ ¬ containsElem m mod
      then { m with available := m.available ++ [modName] }
      else m)
  | none =>
    if modName ∈ m.metaAttrs then .error "AttributeError" else .ok m

/-- `clamp` of common.py:153. -/
def clamp (num smallest largest : Int) : Int :=
  max smallest (min num largest)

/-- The three ArgentPerk catalog members of modules.py:62. -/
def healthCapacity : Element :=
  { variant := .argentPerk, name := "healthCapacity",
    path := "\"perk/zion/player/sp/enviroment_suit/health_capacity\"",
    count := some 0 }

def armorCapacity : Element :=
  { variant := .argentPerk, name := "armorCapacity",
    path := "\"perk/zion/player/sp/enviroment_suit/armor_capacity\"",
    count := some 0 }

def ammoCapacity : Element :=
  { variant := .argentPerk, name := "ammoCapacity",
    path := "\"perk/zion/player/sp/enviroment_suit/ammo_capacity\"",
    count := some 0 }

/-- `ArgentCellUpgrades()` right after `__post_init__`: the default state,
with all three perks available at count 0. -/
def argentCellUpgradesInit : InvModule :=
  { moduleName := "ArgentCellUpgrades", elementType := .argentPerk,
    catalog := [("healthCapacity", healthCapacity),
      ("armorCapacity", armorCapacity), ("ammoCapacity", ammoCapacity)],
    available := ["healthCapacity", "armorCapacity", "ammoCapacity"],
    metaAttrs := ["moduleName", "elementType", "available",
      "updateModuleData", "addToAvailable", "all", "addAllToAvailable",
      "setArgentLevel", "getCanUpgradeFurther"] }

/-- The test `eachArgentPerk.count and eachArgentPerk.count > 3` of
modules.py:87 (short-circuit: a falsy count, 0 or None, never reaches
the comparison). -/
def argentMaxedB (c : Option Int) : Bool :=
  match c with
  | some n => decide (n ≠ 0) && decide (3 < n)
  | none => false

/-- `ArgentCellUpgrades.getCanUpgradeFurther` (modules.py:82). -/
def getCanUpgradeFurther (m : InvModule) : Bool :=
  let numMaxedCapacities :=
    m.available.foldl (fun acc n =>
      match catFind m.catalog n with
      | some perk => if argentMaxedB perk.count then acc + 1 else acc
      | none => acc) 0
  if numMaxedCapacities > 1 then false else true

/-- `ArgentCellUpgrades.setArgentLevel` (modules.py:70): clamps the level,
walks the available list, and on the perk whose name matches the category
re-validates (possibly lowering the mutable `level` variable to 3) and
assigns; returns the final value of `level`. -/
def setArgentLevel (m : InvModule) (category : String) (level : Int) :
    InvModule × Int :=
  let lv := clamp level 0 4
  m.available.foldl
    (fun acc n =>
      match catFind acc.1.catalog n with
      | some perk =>
        if perk.name = category then
          let lv2 := if acc.2 > 3 ∧ ¬ getCanUpgradeFurther acc.1 then 3
            else acc.2
          let cat2 := catUpdate acc.1.catalog n
            (fun p => { p with count := some lv2 })
          ({ acc.1 with catalog := cat2 }, lv2)
        else acc
      | none => acc)
    (m, lv)

/-- The twelve RunePerk catalog members of modules.py:251 onward. -/
def mkRunePerk (name path : String) : Element :=
  { variant := .runePerk, name := name, path := path,
    applyUpgradesForPerk := some false, runePermanentEquip := some false }

def runesCatalog : List (String × Element) :=
  [("vacuum", mkRunePerk "vacuum"
      "\"perk/zion/player/sp/enviroment_suit/increase_drop_radius\""),
   ("dazedAndConfused", mkRunePerk "dazedAndConfused"
      "\"perk/zion/player/sp/enviroment_suit/modify_enemy_stagger_duration\""),
   ("ammoBoost", mkRunePerk "ammoBoost"
      "\"perk/zion/player/sp/enviroment_suit/modify_ammo_drops\""),
   ("equipmentPower", mkRunePerk "equipmentPower"
      "\"perk/zion/player/sp/enviroment_suit/activate_equipment_effectiveness\""),
   ("seekAndDestroy", mkRunePerk "seekAndDestroy"
      "\"perk/zion/player/sp/enviroment_suit/glory_kill_dash\""),
   ("savagery", mkRunePerk "savagery"
      "\"perk/zion/player/sp/enviroment_suit/glory_kill_speed\""),
   ("inFlightMobility", mkRunePerk "inFlightMobility"
      "\"perk/zion/player/sp/enviroment_suit/double_jump_air_control\""),
   ("armoredOffensive", mkRunePerk "armoredOffensive"
      "\"perk/zion/player/sp/enviroment_suit/glory_kills_award_armor\""),
   ("bloodFueled", mkRunePerk "bloodFueled"
      "\"perk/zion/player/sp/enviroment_suit/speed_boost_on_glory_kill\""),
   ("intimacyIsBest", mkRunePerk "intimacyIsBest"
      "\"perk/zion/player/sp/enviroment_suit/modify_enemy_stagger_toughness\""),
   ("richGetRicher", mkRunePerk "richGetRicher"
      "\"perk/zion/player/sp/enviroment_suit/infinite_ammo_on_health_value\""),
   ("savingThrow", mkRunePerk "savingThrow"
      "\"perk/zion/player/sp/enviroment_suit/activate_focus_on_death_blow\"")]

/-- `Runes()` default state (no rune available by default). -/
def runesInit : InvModule :=
  { moduleName := "Runes", elementType := .runePerk,
    catalog := runesCatalog,
    available := [],
    metaAttrs := ["moduleName", "elementType", "available",
      "upgradedRunes", "permEquipRunes",
      "updateModuleData", "addToAvailable", "all", "addAllToAvailable",
      "setIsUpgraded", "setAllAreUpgraded", "setIsPermanent",
      "setAllArePermEquip", "getRunePerkFromName"] }

/-- `Runes.setIsPermanent` (modules.py:228): bare `getattr` (AttributeError
on an unknown name), `isinstance` test, then `addToAvailable` followed by
the flag assignment on the shared rune object. -/
def setIsPermanent (m : InvModule) (runeName : String) (isPermanent : Bool) :
    Except String InvModule :=
  match catFind m.catalog runeName with
  | some rune =>
    if rune.variant = Variant.runePerk then
      let m1 := addToAvailable m runeName
      let cat2 := catUpdate m1.catalog runeName
        (fun r => { r with runePermanentEquip := some isPermanent })
      .ok { m1 with catalog := cat2 }
    else .ok m
  | none =>
    if runeName ∈ m.metaAttrs then .ok m else .error "AttributeError"

/-- `Runes.setAllAreUpgraded` (modules.py:220): walks every class member,
and on members of the module element type whose `applyUpgradesForPerk` is
falsy assigns the argument (non-element members fail the type test). -/
def setAllAreUpgraded (m : InvModule) (areUpgraded : Bool) : InvModule :=
  { m with catalog := m.catalog.map (fun kv =>
      if kv.2.variant = m.elementType ∧ ¬ pyTruthyB kv.2.applyUpgradesForPerk
      then (kv.1, { kv.2 with applyUpgradesForPerk := some areUpgraded })
      else kv) }

/-- `Runes.setAllArePermEquip` (modules.py:236), same shape for the
`runePermanentEquip` flag. -/
def setAllArePermEquip (m : InvModule) (arePermanent : Bool) : InvModule :=
  { m with catalog := m.catalog.map (fun kv =>
      if kv.2.variant = m.elementType ∧ ¬ pyTruthyB kv.2.runePermanentEquip
      then (kv.1, { kv.2 with runePermanentEquip := some arePermanent })
      else kv) }

/-- PraetorPerk catalog member (modules.py:102 onward); paths share the
enviroment_suit prefix (the typo is in the source). -/
def mkPraetorPerk (name pathSuffix : String) (unlockable : Option String) :
    Element :=
  { variant := .praetorPerk, name := name,
    path := "\"perk/zion/player/sp/enviroment_suit/" ++ pathSuffix ++ "\"",
    unlockable := unlockable }

def praetorCatalog : List (String × Element) :=
  [("hazardProtection",
      mkPraetorPerk "hazardProtection" "modify_enviromental_damage_1" none),
   ("selfPreservation",
      mkPraetorPerk "selfPreservation" "modify_enviromental_damage_2" none),
   ("barrelsOFun",
      mkPraetorPerk "barrelsOFun" "modify_enviromental_damage_3" none),
   ("itemAwareness", mkPraetorPerk "itemAwareness" "automap_1"
      (some "\"researchprojects/find_collectibles_1\"")),
   ("secretSense", mkPraetorPerk "secretSense" "automap_2" none),
   ("fullView", mkPraetorPerk "fullView" "automap_3" none),
   ("quickCharge", mkPraetorPerk "quickCharge" "equipment_1"
      (some "\"researchprojects/equipment_1\"")),
   ("stockUp", mkPraetorPerk "stockUp" "equipment_2" none),
   ("rapidCharge", mkPraetorPerk "rapidCharge" "equipment_3" none),
   ("powerSurge", mkPraetorPerk "powerSurge" "powerup_shockwave" none),
   ("healingPower", mkPraetorPerk "healingPower" "powerup_health" none),
   ("powerExtender", mkPraetorPerk "powerExtender" "modify_powerup_duration" none),
   ("adept", mkPraetorPerk "adept" "dexterity_increase_1" none),
   ("quickHands", mkPraetorPerk "quickHands" "dexterity_increase_2" none),
   ("hotSwap", mkPraetorPerk "hotSwap" "dexterity_increase_3" none)]

def praetorSuitUpgradesInit : InvModule :=
  { moduleName := "PraetorSuitUpgrades", elementType := .praetorPerk,
    catalog := praetorCatalog,
    available := [],
    metaAttrs := ["moduleName", "elementType", "available",
      "updateModuleData", "addToAvailable", "all", "addAllToAvailable"] }

/-- EquipmentItem catalog members (modules.py:331). -/
def equipmentCatalog : List (String × Element) :=
  [("doubleJumpThrustBoots",
      { variant := .equipmentItem, name := "doubleJumpThrustBoots",
        path := "\"jumpboots/base\"", equip := some true }),
   ("fragGrenade",
      { variant := .equipmentItem, name := "fragGrenade",
        path := "\"throwable/zion/player/sp/frag_grenade\"",
        equip := some true }),
   ("siphonGrenade",
      { variant := .equipmentItem, name := "siphonGrenade",
        path := "\"throwable/zion/player/sp/siphon_grenade\"" }),
   ("decoyHologram",
      { variant := .equipmentItem, name := "decoyHologram",
        path := "\"decoyhologram/equipment\"" })]

def equipmentInit : InvModule :=
  { moduleName := "Equipment", elementType := .equipmentItem,
    catalog := equipmentCatalog,
    available := [],
    metaAttrs := ["moduleName", "elementType", "available",
      "updateModuleData", "addToAvailable", "all", "addAllToAvailable"] }

/-- WeaponItem catalog member; `ammoType` defaults to the string
`not specified` in elements.py:137. -/
def mkWeaponItem (name pathSuffix ammoType : String) : Element :=
  { variant := .weaponItem, name := name,
    path := "\"weapon/zion/player/sp/" ++ pathSuffix ++ "\"",
    ammoType := some ammoType }

def weaponsCatalog : List (String × Element) :=
  [("fists", mkWeaponItem "fists" "fists" "not specified"),
   ("chainsaw", mkWeaponItem "chainsaw" "chainsaw" "fuel"),
   ("pistol",
      { mkWeaponItem "pistol" "pistol" "not specified" with equip := some true }),
   ("combatShotgun", mkWeaponItem "combatShotgun" "shotgun" "shells"),
   ("heavyAssaultRifle",
      { mkWeaponItem "heavyAssaultRifle" "heavy_rifle_heavy_ar" "bullets" with
        equipReserve := some true }),
   ("plasmaRifle", mkWeaponItem "plasmaRifle" "plasma_rifle" "cells"),
   ("rocketLauncher", mkWeaponItem "rocketLauncher" "rocket_launcher" "rockets"),
   ("superShotgun", mkWeaponItem "superShotgun" "double_barrel" "shells"),
   ("gaussCannon", mkWeaponItem "gaussCannon" "gauss_rifle" "not specified"),
   ("chaingun", mkWeaponItem "chaingun" "chaingun" "bullets"),
   ("bfg9000", mkWeaponItem "bfg9000" "bfg" "bfg")]

/-- `Weapons()` right after `__post_init__`: fists and pistol available. -/
def weaponsInit : InvModule :=
  { moduleName := "Weapons", elementType := .weaponItem,
    catalog := weaponsCatalog,
    available := ["fists", "pistol"],
    metaAttrs := ["moduleName", "elementType", "available",
      "updateModuleData", "addToAvailable", "all", "addAllToAvailable",
      "getAmmoTypeForWeapon"] }

/-- WeaponModPerk catalog member (modules.py:522 onward); the dataclass
default for `applicableMod` is the string `non-mod Upgrade` and `equip`
defaults to False. -/
def mkMod (name applicableWeapon applicableMod pathSuffix : String) : Element :=
  { variant := .weaponModPerk, name := name,
    path := "\"perk/zion/player/sp/weapons/" ++ pathSuffix ++ "\"",
    applicableWeapon := some applicableWeapon,
    applicableMod := some applicableMod,
    equip := some false }

def weaponModsCatalog : List (String × Element) :=
  [("chargeEfficiency", mkMod "chargeEfficiency" "pistol" "non-mod Upgrade"
      "pistol/secondary_charge_shot_faster_charge"),
   ("quickRecovery", mkMod "quickRecovery" "pistol" "non-mod Upgrade"
      "pistol/secondary_charge_shot_faster_discharge"),
   ("lightWeight", mkMod "lightWeight" "pistol" "non-mod Upgrade"
      "pistol/secondary_charge_shot_no_movement_penalty"),
   ("increasedPowerMastery", mkMod "increasedPowerMastery" "pistol"
      "non-mod Upgrade" "pistol/secondary_charge_shot_higher_damage"),
   ("chargedBurst", mkMod "chargedBurst" "combatShotgun" "isBaseMod"
      "shotgun/secondary_charge_burst"),
   ("chargedBurst_speedyRecovery", mkMod "chargedBurst_speedyRecovery"
      "combatShotgun" "chargedBurst" "shotgun/secondary_charge_burst_faster_recharge"),
   ("chargedBurst_rapidFire", mkMod "chargedBurst_rapidFire"
      "combatShotgun" "chargedBurst" "shotgun/secondary_charge_burst_faster_fire_rate"),
   ("chargedBurst_quickLoad", mkMod "chargedBurst_quickLoad"
      "combatShotgun" "chargedBurst" "shotgun/secondary_charge_burst_faster_charge"),
   ("chargedBurst_powerShot_mastery", mkMod "chargedBurst_powerShot_mastery"
      "combatShotgun" "chargedBurst" "shotgun/secondary_charge_burst_mastery"),
   ("explosiveShot", mkMod "explosiveShot" "combatShotgun" "isBaseMod"
      "shotgun/pop_rocket"),
   ("explosiveShot_speedyRecovery", mkMod "explosiveShot_speedyRecovery"
      "combatShotgun" "explosiveShot" "shotgun/pop_rocket_faster_recharge"),
   ("explosiveShot_biggerBoom", mkMod "explosiveShot_biggerBoom"
      "combatShotgun" "explosiveShot" "shotgun/pop_rocket_larger_explosion"),
   ("explosiveShot_instantLoad", mkMod "explosiveShot_instantLoad"
      "combatShotgun" "explosiveShot" "shotgun/pop_rocket_faster_charge"),
   ("explosiveShot_clusterStrike_mastery", mkMod "explosiveShot_clusterStrike_mastery"
      "combatShotgun" "explosiveShot" "shotgun/pop_rocket_mastery"),
   ("fasterReload", mkMod "fasterReload" "superShotgun" "non-mod Upgrade"
      "double_barrel/default_faster_reload"),
   ("uraniumCoating", mkMod "uraniumCoating" "superShotgun" "non-mod Upgrade"
      "double_barrel/default_bullet_penetration"),
   ("doubleTrouble_mastery", mkMod "doubleTrouble_mastery" "superShotgun"
      "non-mod Upgrade" "double_barrel/mastery"),
   ("tacticalScope", mkMod "tacticalScope" "heavyAssaultRifle" "isBaseMod"
      "heavy_rifle_heavy_ar/zoom"),
   ("tacticalScope_uraniumCoating", mkMod "tacticalScope_uraniumCoating"
      "heavyAssaultRifle" "tacticalScope" "heavy_rifle_heavy_ar/zoom_bullet_penetration"),
   ("tacticalScope_skullCracker", mkMod "tacticalScope_skullCracker"
      "heavyAssaultRifle" "tacticalScope" "heavy_rifle_heavy_ar/zoom_more_headshot_damage"),
   ("tacticalScope_lightWeight", mkMod "tacticalScope_lightWeight"
      "heavyAssaultRifle" "tacticalScope" "heavy_rifle_heavy_ar/zoom_no_movement_penalty"),
   ("tacticalScope_devastatorRounds_mastery", mkMod "tacticalScope_devastatorRounds_mastery"
      "heavyAssaultRifle" "tacticalScope" "heavy_rifle_heavy_ar/zoom_mastery"),
   ("microMissiles", mkMod "microMissiles" "heavyAssaultRifle" "isBaseMod"
      "heavy_rifle_heavy_ar/burst_detonate"),
   ("microMissiles_ammoEfficient", mkMod "microMissiles_ammoEfficient"
      "heavyAssaultRifle" "microMissiles" "heavy_rifle_heavy_ar/burst_detonate_lower_ammo_cost"),
   ("microMissiles_advancedLoader", mkMod "microMissiles_advancedLoader"
      "heavyAssaultRifle" "microMissiles" "heavy_rifle_heavy_ar/burst_detonate_faster_recharge"),
   ("microMissiles_quickLauncher", mkMod "microMissiles_quickLauncher"
      "heavyAssaultRifle" "microMissiles" "heavy_rifle_heavy_ar/burst_detonate_faster_charge_time"),
   ("microMissiles_bottomlessMissiles_mastery", mkMod "microMissiles_bottomlessMissiles_mastery"
      "heavyAssaultRifle" "microMissiles" "heavy_rifle_heavy_ar/burst_detonate_mastery"),
   ("heatBlast", mkMod "heatBlast" "plasmaRifle" "isBaseMod"
      "plasma_rifle/secondary_aoe"),
   ("heatBlast_superHeatedRounds", mkMod "heatBlast_superHeatedRounds"
      "plasmaRifle" "heatBlast" "plasma_rifle/secondary_aoe_faster_charge"),
   ("heatBlast_improvedVenting", mkMod "heatBlast_improvedVenting"
      "plasmaRifle" "heatBlast" "plasma_rifle/secondary_aoe_faster_recovery"),
   ("heatBlast_expandedThreshold", mkMod "heatBlast_expandedThreshold"
      "plasmaRifle" "heatBlast" "plasma_rifle/secondary_aoe_more_damage"),
   ("heatBlast_heatedCore_mastery", mkMod "heatBlast_heatedCore_mastery"
      "plasmaRifle" "heatBlast" "plasma_rifle/secondary_aoe_mastery"),
   ("stunBomb", mkMod "stunBomb" "plasmaRifle" "isBaseMod"
      "plasma_rifle/secondary_stun"),
   ("stunBomb_quickRecharge", mkMod "stunBomb_quickRecharge"
      "plasmaRifle" "stunBomb" "plasma_rifle/secondary_stun_faster_recharge"),
   ("stunBomb_bigShock", mkMod "stunBomb_bigShock"
      "plasmaRifle" "stunBomb" "plasma_rifle/secondary_stun_larger_radius"),
   ("stunBomb_largerStun", mkMod "stunBomb_largerStun"
      "plasmaRifle" "stunBomb" "plasma_rifle/secondary_stun_longer_stun"),
   ("stunBomb_chainStun_mastery", mkMod "stunBomb_chainStun_mastery"
      "plasmaRifle" "stunBomb" "plasma_rifle/secondary_stun_mastery"),
   ("lockOnBurst", mkMod "lockOnBurst" "rocketLauncher" "isBaseMod"
      "rocket_launcher/lock_on"),
   ("lockOnBurst_quickLock", mkMod "lockOnBurst_quickLock"
      "rocketLauncher" "lockOnBurst" "rocket_launcher/lockon_decrease_lock_time"),
   ("lockOnBurst_fasterRecovery", mkMod "lockOnBurst_fasterRecovery"
      "rocketLauncher" "lockOnBurst" "rocket_launcher/lockon_faster_recovery"),
   ("lockOnBurst_multiTargeting_mastery", mkMod "lockOnBurst_multiTargeting_mastery"
      "rocketLauncher" "lockOnBurst" "rocket_launcher/lockon_mastery"),
   ("remoteDetonation", mkMod "remoteDetonation" "rocketLauncher" "isBaseMod"
      "rocket_launcher/detonate"),
   ("remoteDetonation_improvedWarhead", mkMod "remoteDetonation_improvedWarhead"
      "rocketLauncher" "remoteDetonation" "rocket_launcher/detonate_larger_damage_radius"),
   ("remoteDetonation_jaggedShrapnel", mkMod "remoteDetonation_jaggedShrapnel"
      "rocketLauncher" "remoteDetonation" "rocket_launcher/detonate_dot_undead"),
   ("remoteDetonation_externalPayload_mastery", mkMod "remoteDetonation_externalPayload_mastery"
      "rocketLauncher" "remoteDetonation" "rocket_launcher/detonate_mastery"),
   ("precisionBolt", mkMod "precisionBolt" "gaussCannon" "isBaseMod"
      "gauss_cannon/charged_sniper"),
   ("precisionBolt_energyEfficient", mkMod "precisionBolt_energyEfficient"
      "gaussCannon" "precisionBolt" "gauss_cannon/charged_sniper_reduced_max_charge"),
   ("precisionBolt_lightWeight", mkMod "precisionBolt_lightWeight"
      "gaussCannon" "precisionBolt" "gauss_cannon/charged_sniper_no_movement_penalty"),
   ("precisionBolt_volatileDischarge_mastery", mkMod "precisionBolt_volatileDischarge_mastery"
      "gaussCannon" "precisionBolt" "gauss_cannon/charged_sniper_mastery"),
   ("siegeMode", mkMod "siegeMode" "gaussCannon" "isBaseMod"
      "gauss_cannon/siege_mode"),
   ("siegeMode_outerBeam", mkMod "siegeMode_outerBeam"
      "gaussCannon" "siegeMode" "gauss_cannon/siege_mode_outer_beam"),
   ("siegeMode_reducedCharge", mkMod "siegeMode_reducedCharge"
      "gaussCannon" "siegeMode" "gauss_cannon/siege_mode_reduced_charge_time"),
   ("siegeMode_mobileSiege_mastery", mkMod "siegeMode_mobileSiege_mastery"
      "gaussCannon" "siegeMode" "gauss_cannon/siege_mode_mastery"),
   ("gatlingRotator", mkMod "gatlingRotator" "chaingun" "isBaseMod"
      "chaingun/gatling"),
   ("gatlingRotator_improvedTorque", mkMod "gatlingRotator_improvedTorque"
      "chaingun" "gatlingRotator" "chaingun/gatling_faster_spinup"),
   ("gatlingRotator_uraniumCoating", mkMod "gatlingRotator_uraniumCoating"
      "chaingun" "gatlingRotator" "chaingun/gatling_penetration"),
   ("gatlingRotator_incendiaryRounds_mastery", mkMod "gatlingRotator_incendiaryRounds_mastery"
      "chaingun" "gatlingRotator" "chaingun/gatling_mastery"),
   ("mobileTurret", mkMod "mobileTurret" "chaingun" "isBaseMod"
      "chaingun/turret"),
   ("mobileTurret_rapidDeployment", mkMod "mobileTurret_rapidDeployment"
      "chaingun" "mobileTurret" "chaingun/turret_faster_equip"),
   ("mobileTurret_uraniumCoating", mkMod "mobileTurret_uraniumCoating"
      "chaingun" "mobileTurret" "chaingun/turret_penetration"),
   ("mobileTurret_ultimateCooling_mastery", mkMod "mobileTurret_ultimateCooling_mastery"
      "chaingun" "mobileTurret" "chaingun/turret_mastery")]

def weaponModsInit : InvModule :=
  { moduleName := "WeaponMods", elementType := .weaponModPerk,
    catalog := weaponModsCatalog,
    available := [],
    metaAttrs := ["moduleName", "elementType", "available",
      "updateModuleData", "addToAvailable", "all", "addAllToAvailable",
      "toggleAllBaseModsAvailable", "toggleAllModUpgradesAvailable",
      "getWeaponModPerkFromName", "getAllModsForWeapon",
      "getAllUpgradesForMod"] }

/-- AmmoItem catalog members (modules.py:1017); `applyAfterLoadout`
defaults to True in elements.py:154. -/
def mkAmmoItem (name : String) (count : Int) : Element :=
  { variant := .ammoItem, name := name,
    path := "\"ammo/zion/sharedammopool/" ++ name ++ "\"",
    count := some count, applyAfterLoadout := some true }

def ammoCatalog : List (String × Element) :=
  [("fuel", mkAmmoItem "fuel" 99), ("shells", mkAmmoItem "shells" 99),
   ("bullets", mkAmmoItem "bullets" 999), ("cells", mkAmmoItem "cells" 999),
   ("rockets", mkAmmoItem "rockets" 99), ("bfg", mkAmmoItem "bfg" 99)]

def ammoInit : InvModule :=
  { moduleName := "Ammo", elementType := .ammoItem,
    catalog := ammoCatalog,
    available := [],
    metaAttrs := ["moduleName", "elementType", "available",
      "updateModuleData", "addToAvailable", "all", "addAllToAvailable"] }

/-- The Inventory of datalib/inventory.py: one member per module. -/
structure Inventory where
  argentCellUpgrades : InvModule
  praetorSuitUpgrades : InvModule
  equipment : InvModule
  weapons : InvModule
  weaponMods : InvModule
  ammo : InvModule
  runes : InvModule
deriving DecidableEq

/-- The `modules` list built in `Inventory.__post_init__`
(inventory.py:27), aliasing the seven module members in fixed order. -/
def Inventory.modules (inv : Inventory) : List InvModule :=
  [inv.argentCellUpgrades, inv.praetorSuitUpgrades, inv.equipment,
   inv.weapons, inv.weaponMods, inv.ammo, inv.runes]

/-- `Inventory()` with every module at its default state. -/
def defaultInventory : Inventory :=
  { argentCellUpgrades := argentCellUpgradesInit,
    praetorSuitUpgrades := praetorSuitUpgradesInit,
    equipment := equipmentInit,
    weapons := weaponsInit,
    weaponMods := weaponModsInit,
    ammo := ammoInit,
    runes := runesInit }

/-- Indent constants of common.py:53. -/
def indent : String := "    "

def doubleIndent : String := indent ++ indent

def tripleIndent : String := doubleIndent ++ indent

def quadIndent : String := tripleIndent ++ indent

/-- `BASE_ITEM` of common.py:134. -/
def BASE_ITEM : List (String × Value) :=
  [("researchGroups", .s "\"main\""), ("equip", .s "true")]

/-- Python f-string rendering of a data value. -/
def valueStr (v : Value) : String :=
  match v with
  | .s str => str
  | .i int => toString int

/-- The item-count loop of `Inventory.generateDeclFile`
(inventory.py:32): starts at 1 for the base item and adds each module
available length. -/
def invItemsCount (inv : Inventory) : Nat :=
  inv.modules.foldl (fun acc m => acc + m.available.length) 1

/-- The rendered data of one module, in available order: the module is
refreshed (`updateModuleData`) and then each available entry data is
read (inventory.py:54).  An available name always denotes a catalog
entry; a dangling name would be unrepresentable in the source, where
the list holds the objects themselves. -/
def moduleItems (m : InvModule) : List (List (String × Value)) :=
  (updateModuleData m).available.filterMap
    (fun n => (catFind (updateModuleData m).catalog n).map Element.data)

/-- The running `itemIndex` pairing of inventory.py:51: each emitted
block is tagged with the next index, starting from the given one. -/
def withIndexFrom (i : Nat) : List (List (String × Value)) →
    List (Nat × List (String × Value))
  | [] => []
  | d :: ds => (i, d) :: withIndexFrom (i + 1) ds

/-- One iteration of the outer module loop of inventory.py:54, carrying
the running `itemIndex` and the blocks emitted so far. -/
def declStep (acc : Nat × List (Nat × List (String × Value)))
    (m : InvModule) : Nat × List (Nat × List (String × Value)) :=
  let ds := moduleItems m
  (acc.1 + ds.length, acc.2 ++ withIndexFrom acc.1 ds)

/-- All `item[N] = { ... }` blocks of the generated file, in emission
order: the fixed base item at index 0, then every module available
entry with the index running across module boundaries starting at 1. -/
def declItemBlocks (inv : Inventory) : List (Nat × List (String × Value)) :=
  (0, BASE_ITEM) :: (inv.modules.foldl declStep (1, [])).2

/-- The writes of one `item[N] = { ... }` block (inventory.py:58). -/
def itemBlockWrites (b : Nat × List (String × Value)) : List String :=
  ("\n" ++ tripleIndent ++ "item[" ++ toString b.1 ++ "] = " ++ "\x7b")
    :: b.2.map (fun kv => "\n" ++ quadIndent ++ kv.1 ++ " = " ++ valueStr kv.2 ++ ";")
    ++ ["\n" ++ tripleIndent ++ "\x7d"]

/-- `Inventory.generateDeclFile` (inventory.py:29) as the exact sequence
of strings passed to `file.write`, in order (the file content is their
concatenation); file-system behaviour is out of scope. -/
def generateDeclWrites (inv : Inventory) : List String :=
  ["\x7b\n" ++ indent,
   "edit = \x7b\n" ++ doubleIndent ++ "startingInventory = \x7b",
   "\n" ++ tripleIndent ++ "num = " ++ toString (invItemsCount inv) ++ ";"]
  ++ (declItemBlocks inv).flatMap itemBlockWrites
  ++ ["\n" ++ doubleIndent ++ "\x7d", "\n" ++ indent ++ "\x7d", "\n\x7d"]

/-- `Weapons.getAmmoTypeForWeapon` (modules.py:368): bare `getattr`, so
an unknown name raises; a non-WeaponItem attribute returns None
implicitly. -/
def getAmmoTypeForWeapon (m : InvModule) (weaponName : String) :
    Except String (Option String) :=
  match catFind m.catalog weaponName with
  | some weapon =>
    if weapon.variant = Variant.weaponItem then .ok weapon.ammoType else .ok none
  | none =>
    if weaponName ∈ m.metaAttrs then .ok none else .error "AttributeError"

/-- Python `list.remove(x)` on an available list: drops the first entry
whose object equals `x`, raising ValueError when there is none. -/
def pyListRemove (m : InvModule) (x : Element) : Except String InvModule :=
  match m.available.findIdx? (fun n => catFind m.catalog n == some x) with
  | some i => .ok { m with available := m.available.eraseIdx i }
  | none => .error "ValueError"

/-- `App.weaponsCallback` (app.py:885).  The loop searches the Weapons
available list for the named weapon; if found, the callback removes that
weapon object from the EQUIPMENT module available list (app.py:893) —
note the module mismatch — and otherwise it calls `addToAvailable` on
the EQUIPMENT module with the weapon name (app.py:899).  The toggleAll
switch manipulation is pure UI state and is reached only after the
remove succeeds. -/
def weaponsCallback (inv : Inventory) (weaponItemName : String) :
    Except String Inventory :=
  let foundWeapon :=
    (inv.weapons.available.filterMap (fun n => catFind inv.weapons.catalog n)).find?
      (fun w => w.name == weaponItemName)
  match foundWeapon with
  | some weaponItem =>
    match pyListRemove inv.equipment weaponItem with
    | .ok eq2 => .ok { inv with equipment := eq2 }
    | .error msg => .error msg
  | none =>
    .ok { inv with equipment := addToAvailable inv.equipment weaponItemName }

/-! Specification-side helper definitions used by the theorem
statements below (these are not translations of source code). -/

/-- The count field of the catalog entry at a name. -/
def countIn (m : InvModule) (n : String) : Option Int :=
  (catFind m.catalog n).bind Element.count

/-- Whether the category stored at a name counts as maxed for
`getCanUpgradeFurther`. -/
def maxedIn (m : InvModule) (n : String) : Bool :=
  argentMaxedB (countIn m n)

/-- The ArgentCellUpgrades state with the three counts as given; every
state reachable from the default by `setArgentLevel` calls has this
shape. -/
def argentState (x y z : Int) : InvModule :=
  { argentCellUpgradesInit with catalog :=
      [("healthCapacity", { healthCapacity with count := some x }),
       ("armorCapacity", { armorCapacity with count := some y }),
       ("ammoCapacity", { ammoCapacity with count := some z })] }

/-- How many of three counts are maxed. -/
def numMaxed3 (x y z : Int) : Nat :=
  (if argentMaxedB (some x) then 1 else 0)
    + (if argentMaxedB (some y) then 1 else 0)
    + (if argentMaxedB (some z) then 1 else 0)

/-- The state after a sequence of `setArgentLevel` calls starting from
the default ArgentCellUpgrades state. -/
def argentReach (ops : List (String × Int)) : InvModule :=
  ops.foldl (fun s p => (setArgentLevel s p.1 p.2).1) argentCellUpgradesInit

/-- Condition under which `addToAvailable` appends: the name denotes a
not-yet-present catalog entry of the module element type. -/
def addWouldApply (m : InvModule) (name : String) : Bool :=
  match catFind m.catalog name with
  | some e => decide (e.variant = m.elementType) && ! containsElem m e
  | none => false

/-- Condition under which `WeaponMods.addToAvailable` appends: the name
denotes a not-yet-present mod whose applicableWeapon matches. -/
def weaponModsAddWouldApply (m : InvModule) (applicableWeapon name : String) :
    Bool :=
  match catFind m.catalog name with
  | some mod =>
    decide (mod.applicableWeapon = some applicableWeapon) && ! containsElem m mod
  | none => false

/-- A rune element with the two selection flags as given (every RunePerk
field valuation has this shape). -/
def runeWithFlags (nm pth : String) (upg perm : Bool) : Element :=
  { mkRunePerk nm pth with
    applyUpgradesForPerk := some upg
    runePermanentEquip := some perm }

/-- A Runes state with every flag of every rune set to true (used to
exercise the frame part of the bulk-setter theorem). -/
def runesAllFlagsSet : InvModule :=
  setAllAreUpgraded (setAllArePermEquip runesInit true) true

/-- The vacuum rune catalog entry as it appears in `runesAllFlagsSet`. -/
def vacuumAllSet : String × Element :=
  ("vacuum", { mkRunePerk "vacuum"
      "\"perk/zion/player/sp/enviroment_suit/increase_drop_radius\"" with
    applyUpgradesForPerk := some true, runePermanentEquip := some true })

/-! Theorems. -/

/-- C5.  Argent render shape: health and armor capacity perks render
exactly the keys perk, count, equip, remove_after_equip; the ammo
capacity perk additionally (and alone) renders applyAfterLoadout, in
that key order; count is the current count field. -/
theorem argent_render_shape (c : Int) :
    (updateData { healthCapacity with count := some c }).data
      = [("perk", Value.s healthCapacity.path), ("count", Value.i c),
         ("equip", Value.s "true"), ("remove_after_equip", Value.s "true")]
    ∧ (updateData { armorCapacity with count := some c }).data
      = [("perk", Value.s armorCapacity.path), ("count", Value.i c),
         ("equip", Value.s "true"), ("remove_after_equip", Value.s "true")]
    ∧ (updateData { ammoCapacity with count := some c }).data
      = [("perk", Value.s ammoCapacity.path), ("count", Value.i c),
         ("equip", Value.s "true"), ("applyAfterLoadout", Value.s "true"),
         ("remove_after_equip", Value.s "true")] :=
  ⟨rfl, rfl, rfl⟩

/-- C6.  Rune render exclusivity: with `runePermanentEquip` set the
rendered mapping is exactly perk, applyUpgradesForPerk, equip (no isRune
key); with it clear it is exactly perk, applyUpgradesForPerk, isRune (no
equip key); the shape depends only on that flag. -/
theorem rune_render_exclusive (nm pth : String) (upg perm : Bool) :
    (updateData (runeWithFlags nm pth upg perm)).data
      = (if perm then
          [("perk", Value.s pth),
           ("applyUpgradesForPerk", Value.s (pyStrLower (some upg))),
           ("equip", Value.s "true")]
        else
          [("perk", Value.s pth),
           ("applyUpgradesForPerk", Value.s (pyStrLower (some upg))),
           ("isRune", Value.s "true")])
    ∧ (("isRune" ∈ ((updateData (runeWithFlags nm pth upg perm)).data.map
          Prod.fst)) ↔ perm = false)
    ∧ (("equip" ∈ ((updateData (runeWithFlags nm pth upg perm)).data.map
          Prod.fst)) ↔ perm = true) := by
  cases perm <;> refine ⟨rfl, ?_, ?_⟩ <;>
    simp [updateData, runeWithFlags, mkRunePerk, pyTruthyB]

/-- Rendering ignores the current `data` mapping. -/
lemma updateData_set_data (e : Element) (d : List (String × Value)) :
    updateData { e with data := d } = updateData e := by
  rcases e with ⟨v, nm, pth, d0, eq, cnt, aw, am, upg, ir, rpe, unl, aal, amt, er⟩
  cases v <;> rfl

/-- Rendering only rewrites the `data` mapping. -/
lemma updateData_eq_set_data (e : Element) :
    ∃ d, updateData e = { e with data := d } := by
  rcases e with ⟨v, nm, pth, d0, eq, cnt, aw, am, upg, ir, rpe, unl, aal, amt, er⟩
  cases v <;> first
  | exact ⟨_, rfl⟩
  | (simp only [updateData]; split_ifs <;> exact ⟨_, rfl⟩)

/-- Rendering an element is idempotent. -/
lemma updateData_idem (e : Element) : updateData (updateData e) = updateData e := by
  obtain ⟨d, hd⟩ := updateData_eq_set_data e
  rw [hd, updateData_set_data, hd]

/-- A fold of `catUpdate` steps over a name list, for an idempotent
element transformation, is the pointwise conditional map. -/
lemma foldl_catUpdate_eq_map (f : Element → Element)
    (hf : ∀ e, f (f e) = f e) (ns : List String)
    (cat : List (String × Element)) :
    ns.foldl (fun c n => catUpdate c n f) cat
      = cat.map (fun kv => if kv.1 ∈ ns then (kv.1, f kv.2) else kv) := by
  induction ns generalizing cat with
  | nil => simp
  | cons a as ih =>
    rw [List.foldl_cons, ih]
    simp only [catUpdate, List.map_map]
    refine List.map_congr_left ?_
    intro kv _
    by_cases h1 : kv.1 = a <;> by_cases h2 : kv.1 ∈ as <;>
      simp [h1, h2, Function.comp, hf]

/-- C8.  Render idempotence: `updateData` twice equals `updateData`
once for every element, and `updateModuleData` twice equals
`updateModuleData` once for every module state. -/
theorem render_idempotent :
    (∀ e : Element, updateData (updateData e) = updateData e)
    ∧ ∀ m : InvModule, updateModuleData (updateModuleData m) = updateModuleData m := by
  refine ⟨updateData_idem, fun m => ?_⟩
  have hcat : (updateModuleData (updateModuleData m)).catalog
      = (updateModuleData m).catalog := by
    simp only [updateModuleData,
      foldl_catUpdate_eq_map updateData updateData_idem, List.map_map]
    refine List.map_congr_left ?_
    intro kv _
    by_cases h : kv.1 ∈ m.available <;> simp [h, Function.comp, updateData_idem]
  rcases m with ⟨mn, et, cat, avail, ma⟩
  simpa [updateModuleData] using hcat

/-- Setting the upgrade flag to its current false value is the identity
on the element. -/
lemma element_set_upg_self (e : Element) (h : e.applyUpgradesForPerk = some false) :
    ({ e with applyUpgradesForPerk := some false } : Element) = e := by
  rcases e with ⟨v, nm, pth, d0, eq, cnt, aw, am, upg, ir, rpe, unl, aal, amt, er⟩
  simpa using h.symm

/-- Setting the permanent-equip flag to its current false value is the
identity on the element. -/
lemma element_set_perm_self (e : Element) (h : e.runePermanentEquip = some false) :
    ({ e with runePermanentEquip := some false } : Element) = e := by
  rcases e with ⟨v, nm, pth, d0, eq, cnt, aw, am, upg, ir, rpe, unl, aal, amt, er⟩
  simpa using h.symm

/-- C10.  The bulk rune setters only assign to runes whose flag is
currently falsy, so calling either with false changes nothing, and a
rune whose flag is already true is never touched: the operations can
set flags but never clear them.  (In every reachable Runes state the
flags of rune members are bools, never None, which is the stated
hypothesis.) -/
theorem bulk_rune_setters_one_way (m : InvModule)
    (h1 : ∀ kv ∈ m.catalog, kv.2.variant = m.elementType →
      kv.2.applyUpgradesForPerk.isSome)
    (h2 : ∀ kv ∈ m.catalog, kv.2.variant = m.elementType →
      kv.2.runePermanentEquip.isSome) :
    setAllAreUpgraded m false = m ∧ setAllArePermEquip m false = m
    ∧ (∀ b : Bool, ∀ kv ∈ m.catalog, kv.2.applyUpgradesForPerk = some true →
        kv ∈ (setAllAreUpgraded m b).catalog)
    ∧ (∀ b : Bool, ∀ kv ∈ m.catalog, kv.2.runePermanentEquip = some true →
        kv ∈ (setAllArePermEquip m b).catalog) := by
  refine ⟨?_, ?_, ?_, ?_⟩
  · have hcat : (setAllAreUpgraded m false).catalog = m.catalog := by
      simp only [setAllAreUpgraded]
      refine (List.map_congr_left ?_).trans (List.map_id m.catalog)
      intro kv hm
      split_ifs with hc
      · rcases hc with ⟨hv, hf⟩
        have := h1 kv hm hv
        rcases hup : kv.2.applyUpgradesForPerk with _ | b
        · simp [hup] at this
        · rcases b with _ | _
          · simp [element_set_upg_self kv.2 hup]
          · simp [pyTruthyB, hup] at hf
      · rfl
    rcases m with ⟨mn, et, cat, avail, ma⟩
    simpa [setAllAreUpgraded] using hcat
  · have hcat : (setAllArePermEquip m false).catalog = m.catalog := by
      simp only [setAllArePermEquip]
      refine (List.map_congr_left ?_).trans (List.map_id m.catalog)
      intro kv hm
      split_ifs with hc
      · rcases hc with ⟨hv, hf⟩
        have := h2 kv hm hv
        rcases hup : kv.2.runePermanentEquip with _ | b
        · simp [hup] at this
        · rcases b with _ | _
          · simp [element_set_perm_self kv.2 hup]
          · simp [pyTruthyB, hup] at hf
      · rfl
    rcases m with ⟨mn, et, cat, avail, ma⟩
    simpa [setAllArePermEquip] using hcat
  · intro b kv hm htrue
    simp only [setAllAreUpgraded]
    refine List.mem_map.2 ⟨kv, hm, ?_⟩
    rw [if_neg]
    simp [pyTruthyB, htrue]
  · intro b kv hm htrue
    simp only [setAllArePermEquip]
    refine List.mem_map.2 ⟨kv, hm, ?_⟩
    rw [if_neg]
    simp [pyTruthyB, htrue]

/-- Witness for C10 at a concrete all-flags-set Runes state. -/
theorem bulk_rune_setters_one_way_witness :
    setAllAreUpgraded runesAllFlagsSet false = runesAllFlagsSet
    ∧ setAllArePermEquip runesAllFlagsSet false = runesAllFlagsSet
    ∧ vacuumAllSet ∈ (setAllAreUpgraded runesAllFlagsSet true).catalog
    ∧ vacuumAllSet ∈ (setAllArePermEquip runesAllFlagsSet true).catalog := by
  have h := bulk_rune_setters_one_way runesAllFlagsSet (by decide) (by decide)
  exact ⟨h.1, h.2.1,
    h.2.2.1 true vacuumAllSet (by decide) (by decide),
    h.2.2.2 true vacuumAllSet (by decide) (by decide)⟩

/-- Resolving a name after a store update at key `k`. -/
lemma catFind_catUpdate (cat : List (String × Element)) (k n : String)
    (f : Element → Element) :
    catFind (catUpdate cat k f) n
      = (catFind cat n).map (fun e => if n = k then f e else e) := by
  induction cat with
  | nil => rfl
  | cons kv cat ih =>
    rcases kv with ⟨k0, v0⟩
    simp only [catUpdate] at ih
    by_cases hk : k0 = k <;> by_cases hn : k0 = n
    · simp [catUpdate, catFind, hk, hn, ih, hk.symm.trans hn]
    · simp [catUpdate, catFind, hk, hn, ih,
        show ¬(k = n) from fun h => hn (hk.trans h)]
    · simp [catUpdate, catFind, hk, hn, ih,
        show ¬(n = k) from fun h => hk (hn.trans h)]
    · simp [catUpdate, catFind, hk, hn, ih]

/-- C9.  `setIsPermanent` always selects the rune: for every name
resolving to a RunePerk, the call succeeds, adds the rune to the
available pool whenever it was not already there (for both flag
values), and stores the requested `runePermanentEquip` value. -/
theorem setIsPermanent_selects (m : InvModule) (runeName : String)
    (isPermanent : Bool) (e : Element)
    (hfind : catFind m.catalog runeName = some e)
    (hv : e.variant = Variant.runePerk)
    (hty : m.elementType = Variant.runePerk) :
    ∃ m2, setIsPermanent m runeName isPermanent = Except.ok m2
      ∧ (¬ containsElem m e → m2.available = m.available ++ [runeName])
      ∧ (containsElem m e → m2.available = m.available)
      ∧ catFind m2.catalog runeName
          = some { e with runePermanentEquip := some isPermanent } := by
  by_cases hc : containsElem m e
  · refine ⟨⟨m.moduleName, m.elementType,
      catUpdate m.catalog runeName
        (fun r => { r with runePermanentEquip := some isPermanent }),
      m.available, m.metaAttrs⟩, ?_, ?_, ?_, ?_⟩
    · simp [setIsPermanent, hfind, hv, addToAvailable, hc]
    · intro h
      exact absurd hc h
    · intro _
      rfl
    · rw [catFind_catUpdate, hfind]
      simp
  · refine ⟨⟨m.moduleName, m.elementType,
      catUpdate m.catalog runeName
        (fun r => { r with runePermanentEquip := some isPermanent }),
      m.available ++ [runeName], m.metaAttrs⟩, ?_, ?_, ?_, ?_⟩
    · simp [setIsPermanent, hfind, hv, addToAvailable, hty, hc]
    · intro _
      rfl
    · intro h
      exact absurd h hc
    · rw [catFind_catUpdate, hfind]
      simp

/-- Witness for C9: `setIsPermanent` with isPermanent set to FALSE on a
rune that is not yet available still makes it available. -/
theorem setIsPermanent_selects_witness :
    ∃ m2, setIsPermanent runesInit "vacuum" false = Except.ok m2
      ∧ m2.available = runesInit.available ++ ["vacuum"]
      ∧ catFind m2.catalog "vacuum" = some (mkRunePerk "vacuum"
          "\"perk/zion/player/sp/enviroment_suit/increase_drop_radius\"") := by
  obtain ⟨m2, h1, h2, h3, h4⟩ := setIsPermanent_selects runesInit "vacuum" false
    (mkRunePerk "vacuum"
      "\"perk/zion/player/sp/enviroment_suit/increase_drop_radius\"")
    (by decide) (by decide) (by decide)
  refine ⟨m2, h1, h2 (by decide), ?_⟩
  rw [h4]
  rfl

/-- A name that is available and resolves to an element makes that
element contained (list membership checks object equality). -/
lemma containsElem_of_mem (m : InvModule) (name : String) (e : Element)
    (hfind : catFind m.catalog name = some e) (hmem : name ∈ m.available) :
    containsElem m e = true := by
  simp only [containsElem, List.any_eq_true]
  exact ⟨name, hmem, by simp [hfind]⟩

/-- C7 (amended).  The base `addToAvailable` appends exactly when the
name resolves to a not-yet-present catalog entry of the module element
type and otherwise changes nothing, never raising and never introducing
a duplicate.  `WeaponMods.addToAvailable` additionally requires the
mod's `applicableWeapon` to equal its first argument, and a name hitting
a non-catalog attribute of the module raises AttributeError instead of
being a silent no-op. -/
theorem addToAvailable_permissive (m : InvModule)
    (name applicableWeapon : String) :
    addToAvailable m name
      = { m with available :=
          if addWouldApply m name then m.available ++ [name] else m.available }
    ∧ weaponModsAddToAvailable m applicableWeapon name
      = (if weaponModsAddWouldApply m applicableWeapon name then
          Except.ok { m with available := m.available ++ [name] }
        else if (catFind m.catalog name).isNone ∧ name ∈ m.metaAttrs then
          Except.error "AttributeError"
        else Except.ok m)
    ∧ (m.available.Nodup → (addToAvailable m name).available.Nodup) := by
  have hA : addToAvailable m name
      = { m with available :=
          if addWouldApply m name then m.available ++ [name] else m.available } := by
    unfold addToAvailable addWouldApply
    rcases h : catFind m.catalog name with _ | e
    · simp
    · by_cases hv : e.variant = m.elementType <;>
        by_cases hc : containsElem m e <;> simp [hv, hc]
  refine ⟨hA, ?_, ?_⟩
  · unfold weaponModsAddToAvailable weaponModsAddWouldApply
    rcases h : catFind m.catalog name with _ | e
    · by_cases hm : name ∈ m.metaAttrs <;> simp [hm]
    · by_cases hw : e.applicableWeapon = some applicableWeapon <;>
        by_cases hc : containsElem m e <;> simp [hw, hc]
  · intro hnd
    rw [hA]
    dsimp only
    split_ifs with hw
    · have hne : name ∉ m.available := by
        intro hmem
        unfold addWouldApply at hw
        rcases h : catFind m.catalog name with _ | e
        · rw [h] at hw
          simp at hw
        · rw [h] at hw
          simp only [Bool.and_eq_true, Bool.not_eq_true'] at hw
          rw [containsElem_of_mem m name e h hmem] at hw
          simp at hw
      simp [List.nodup_append, hnd, hne]
    · exact hnd

/-- Counterexample to C7 as stated: `chargedBurst` resolves to a
not-yet-present WeaponModPerk — the module element type — yet
`WeaponMods.addToAvailable` is a no-op because the passed applicable
weapon (pistol) does not match the mod's weapon (combatShotgun). -/
theorem weaponMods_add_requires_weapon_match :
    weaponModsAddToAvailable weaponModsInit "pistol" "chargedBurst"
      = Except.ok weaponModsInit
    ∧ (catFind weaponModsInit.catalog "chargedBurst").map Element.variant
      = some Variant.weaponModPerk
    ∧ weaponModsInit.elementType = Variant.weaponModPerk
    ∧ "chargedBurst" ∉ weaponModsInit.available := by
  exact ⟨rfl, rfl, rfl, by decide⟩

/-- Witness for C7 (amended) at a concrete appending input. -/
theorem addToAvailable_permissive_witness :
    addToAvailable weaponModsInit "chargedBurst"
      = { weaponModsInit with
          available := weaponModsInit.available ++ ["chargedBurst"] }
    ∧ weaponModsAddToAvailable weaponModsInit "combatShotgun" "chargedBurst"
      = Except.ok { weaponModsInit with
          available := weaponModsInit.available ++ ["chargedBurst"] }
    ∧ (addToAvailable weaponModsInit "chargedBurst").available.Nodup := by
  have h := addToAvailable_permissive weaponModsInit "chargedBurst" "combatShotgun"
  have hb : addWouldApply weaponModsInit "chargedBurst" = true := by decide
  have hb2 : weaponModsAddWouldApply weaponModsInit "combatShotgun" "chargedBurst"
      = true := by decide
  refine ⟨?_, ?_, h.2.2 (by decide)⟩
  · rw [h.1, hb]
    rfl
  · rw [h.2.1, hb2]
    rfl

/-- C3 (code bug).  Toggling ON a weapon with a real ammo type does not
make that ammo available: `weaponsCallback` calls `addToAvailable` on
the EQUIPMENT module (app.py:899), where the weapon name resolves to no
attribute, so the whole inventory is unchanged — the chainsaw is not
enabled and its fuel ammo is not added to the Ammo module.  No code in
the repository couples weapon availability to ammo availability (the
`getAmmoTypeForWeapon` helper of modules.py:368 has no caller). -/
theorem weaponsCallback_no_ammo_coupling :
    (catFind weaponsInit.catalog "chainsaw").map Element.ammoType
      = some (some "fuel")
    ∧ "chainsaw" ∉ defaultInventory.weapons.available
    ∧ weaponsCallback defaultInventory "chainsaw" = Except.ok defaultInventory
    ∧ "fuel" ∉ defaultInventory.ammo.available
    ∧ defaultInventory.ammo.available = [] := by
  exact ⟨rfl, by decide, rfl, by decide, rfl⟩

/-- C4 (code bug).  Toggling OFF a currently available weapon raises
instead of removing it: with the pistol available in the Weapons
module, `weaponsCallback` executes `equipment.available.remove(pistol)`
(app.py:893) on the Equipment module, whose available list cannot
contain the pistol WeaponItem, so `list.remove` raises ValueError. -/
theorem weaponsCallback_remove_raises :
    "pistol" ∈ defaultInventory.weapons.available
    ∧ weaponsCallback defaultInventory "pistol" = Except.error "ValueError" := by
  exact ⟨by decide, rfl⟩

/-- The indices paired by `withIndexFrom` are consecutive. -/
lemma withIndexFrom_map_fst (i : Nat) (l : List (List (String × Value))) :
    (withIndexFrom i l).map Prod.fst = List.range' i l.length := by
  induction l generalizing i with
  | nil => rfl
  | cons d ds ih => simp [withIndexFrom, ih, List.range'_succ]

/-- Resolution through a key-preserving conditional map of a store. -/
lemma catFind_condMap (cat : List (String × Element)) (p : String → Prop)
    [DecidablePred p] (f : Element → Element) (n : String) :
    catFind (cat.map (fun kv => if p kv.1 then (kv.1, f kv.2) else kv)) n
      = (catFind cat n).map (fun e => if p n then f e else e) := by
  induction cat with
  | nil => rfl
  | cons kv cat ih =>
    rcases kv with ⟨k0, v0⟩
    by_cases hp : p k0 <;> by_cases hn : k0 = n
    · subst hn
      simp [catFind, hp, ih]
    · simp [catFind, hp, hn, ih]
    · subst hn
      simp [catFind, hp, ih]
    · simp [catFind, hp, hn, ih]

/-- Refreshing a module keeps every attribute resolvable. -/
lemma catFind_updateModuleData_isSome (m : InvModule) (n : String) :
    (catFind (updateModuleData m).catalog n).isSome
      = (catFind m.catalog n).isSome := by
  simp only [updateModuleData, foldl_catUpdate_eq_map updateData updateData_idem]
  rw [catFind_condMap]
  rcases catFind m.catalog n <;> simp

/-- `filterMap` with an everywhere-defined function keeps the length. -/
lemma length_filterMap_of_isSome {α β : Type} (f : α → Option β) (l : List α)
    (h : ∀ a ∈ l, (f a).isSome) : (l.filterMap f).length = l.length := by
  induction l with
  | nil => rfl
  | cons a l ih =>
    rcases hfa : f a with _ | b
    · exact absurd (h a (by simp)) (by simp [hfa])
    · simp [List.filterMap_cons, hfa, ih (fun x hx => h x (by simp [hx]))]

/-- A module emits one item block per available entry. -/
lemma moduleItems_length (m : InvModule)
    (h : ∀ n ∈ m.available, (catFind m.catalog n).isSome) :
    (moduleItems m).length = m.available.length := by
  unfold moduleItems
  have havail : (updateModuleData m).available = m.available := rfl
  rw [havail, length_filterMap_of_isSome]
  intro n hn
  have hs := catFind_updateModuleData_isSome m n
  rw [h n hn] at hs
  rcases hx : catFind (updateModuleData m).catalog n with _ | v
  · rw [hx] at hs
    simp at hs
  · simp [hx]

/-- The module loop emits blocks with consecutive indices, continuing
across module boundaries. -/
lemma foldl_declStep_map_fst (ms : List InvModule) (i : Nat)
    (acc : List (Nat × List (String × Value))) :
    ((ms.foldl declStep (i, acc)).2).map Prod.fst
      = acc.map Prod.fst
        ++ List.range' i ((ms.map (fun m => (moduleItems m).length)).sum) := by
  induction ms generalizing i acc with
  | nil => simp
  | cons m ms ih =>
    rw [List.foldl_cons]
    show ((ms.foldl declStep
      (i + (moduleItems m).length,
        acc ++ withIndexFrom i (moduleItems m))).2).map Prod.fst = _
    rw [ih]
    simp [withIndexFrom_map_fst, List.append_assoc]
    omega

/-- Closed form of the item-count loop. -/
lemma invItemsCount_eq (inv : Inventory) :
    invItemsCount inv = 1 + (inv.modules.map (fun m => m.available.length)).sum := by
  simp [invItemsCount, Inventory.modules]
  omega

/-- C2.  Serializer count and index correctness: the emitted `num` is
1 plus the sum of the module available lengths, and the emitted item
indices are exactly 0..num-1, starting at the fixed base item 0 and
running contiguously across module boundaries in registry order. -/
theorem serializer_count_and_indices (inv : Inventory)
    (h : ∀ m ∈ inv.modules, ∀ n ∈ m.available, (catFind m.catalog n).isSome) :
    invItemsCount inv = 1 + (inv.modules.map (fun m => m.available.length)).sum
    ∧ (declItemBlocks inv).map Prod.fst = List.range (invItemsCount inv) := by
  refine ⟨invItemsCount_eq inv, ?_⟩
  have hsum : (inv.modules.map (fun m => (moduleItems m).length)).sum
      = (inv.modules.map (fun m => m.available.length)).sum := by
    refine congrArg List.sum (List.map_congr_left ?_)
    intro m hm
    exact moduleItems_length m (h m hm)
  simp only [declItemBlocks, List.map_cons]
  rw [foldl_declStep_map_fst, hsum, invItemsCount_eq]
  simp only [List.map_nil, List.nil_append]
  rw [Nat.add_comm 1 ((inv.modules.map (fun m => m.available.length)).sum),
    List.range_eq_range', List.range'_succ]

/-- Witness for C2 at the default inventory (3 argent perks and 2
default weapons available: num is 6 and the indices are 0..5). -/
theorem serializer_count_and_indices_witness :
    invItemsCount defaultInventory
      = 1 + (defaultInventory.modules.map (fun m => m.available.length)).sum
    ∧ invItemsCount defaultInventory = 6
    ∧ (declItemBlocks defaultInventory).map Prod.fst = List.range 6 := by
  have h := serializer_count_and_indices defaultInventory (by decide)
  refine ⟨h.1, by decide, ?_⟩
  rw [h.2]
  rfl

/-- `getCanUpgradeFurther` on an Argent state counts the maxed
categories and allows upgrading while at most one is maxed. -/
lemma getCanUpgradeFurther_argentState (x y z : Int) :
    getCanUpgradeFurther (argentState x y z) = decide (numMaxed3 x y z ≤ 1) := by
  simp only [getCanUpgradeFurther, argentState, argentCellUpgradesInit,
    catFind, numMaxed3, List.foldl]
  norm_num
  split_ifs <;> simp_all

/-- `setArgentLevel` on the health category, in closed form. -/
lemma setArgentLevel_health (x y z l : Int) :
    setArgentLevel (argentState x y z) "healthCapacity" l
      = (argentState (if clamp l 0 4 > 3 ∧ ¬ getCanUpgradeFurther (argentState x y z) then 3 else clamp l 0 4) y z,
         if clamp l 0 4 > 3 ∧ ¬ getCanUpgradeFurther (argentState x y z) then 3 else clamp l 0 4) := rfl

/-- `setArgentLevel` on the armor category, in closed form. -/
lemma setArgentLevel_armor (x y z l : Int) :
    setArgentLevel (argentState x y z) "armorCapacity" l
      = (argentState x (if clamp l 0 4 > 3 ∧ ¬ getCanUpgradeFurther (argentState x y z) then 3 else clamp l 0 4) z,
         if clamp l 0 4 > 3 ∧ ¬ getCanUpgradeFurther (argentState x y z) then 3 else clamp l 0 4) := rfl

/-- `setArgentLevel` on the ammo category, in closed form. -/
lemma setArgentLevel_ammo (x y z l : Int) :
    setArgentLevel (argentState x y z) "ammoCapacity" l
      = (argentState x y (if clamp l 0 4 > 3 ∧ ¬ getCanUpgradeFurther (argentState x y z) then 3 else clamp l 0 4),
         if clamp l 0 4 > 3 ∧ ¬ getCanUpgradeFurther (argentState x y z) then 3 else clamp l 0 4) := rfl

set_option maxHeartbeats 1000000 in
/-- `setArgentLevel` on any other category name only clamps. -/
lemma setArgentLevel_other (x y z l : Int) (c : String)
    (h1 : c ≠ "healthCapacity") (h2 : c ≠ "armorCapacity")
    (h3 : c ≠ "ammoCapacity") :
    setArgentLevel (argentState x y z) c l
      = (argentState x y z, clamp l 0 4) := by
  simp [setArgentLevel, argentState, argentCellUpgradesInit, catFind,
    healthCapacity, armorCapacity, ammoCapacity,
    Ne.symm h1, Ne.symm h2, Ne.symm h3]

/-- Count projections of an Argent state. -/
lemma countIn_argentState_health (x y z : Int) :
    countIn (argentState x y z) "healthCapacity" = some x := rfl

lemma countIn_argentState_armor (x y z : Int) :
    countIn (argentState x y z) "armorCapacity" = some y := rfl

lemma countIn_argentState_ammo (x y z : Int) :
    countIn (argentState x y z) "ammoCapacity" = some z := rfl

lemma maxedIn_argentState_health (x y z : Int) :
    maxedIn (argentState x y z) "healthCapacity" = argentMaxedB (some x) := rfl

lemma maxedIn_argentState_armor (x y z : Int) :
    maxedIn (argentState x y z) "armorCapacity" = argentMaxedB (some y) := rfl

lemma maxedIn_argentState_ammo (x y z : Int) :
    maxedIn (argentState x y z) "ammoCapacity" = argentMaxedB (some z) := rfl

/-- `numMaxed3` is invariant under swapping its arguments. -/
lemma numMaxed3_swap12 (x y z : Int) : numMaxed3 x y z = numMaxed3 y x z := by
  unfold numMaxed3
  split_ifs <;> omega

lemma numMaxed3_swap13 (x y z : Int) : numMaxed3 x y z = numMaxed3 z y x := by
  unfold numMaxed3
  split_ifs <;> omega

/-- Updating the first count keeps at most two categories maxed when
the new count is not maxed or at most one other was maxed. -/
lemma numMaxed3_update_le (x y z B : Int) (h : numMaxed3 x y z ≤ 2)
    (hcase : argentMaxedB (some B) = false ∨ numMaxed3 x y z ≤ 1) :
    numMaxed3 B y z ≤ 2 := by
  unfold numMaxed3 at *
  rcases hcase with hB | hle
  · rw [hB]
    split_ifs at * <;> omega
  · split_ifs at * <;> omega

/-- A count of at most 3 is not maxed. -/
lemma argentMaxedB_of_le3 (n : Int) (h : n ≤ 3) :
    argentMaxedB (some n) = false := by
  simp only [argentMaxedB, Bool.and_eq_false_iff, decide_eq_false_iff_not]
  omega

/-- The count written by `setArgentLevel` is either not maxed, or was
written while at most one category was maxed. -/
lemma setLevel_new_count_cases (x y z l : Int) :
    argentMaxedB (some (if clamp l 0 4 > 3
        ∧ ¬ getCanUpgradeFurther (argentState x y z) then 3 else clamp l 0 4))
      = false ∨ numMaxed3 x y z ≤ 1 := by
  rw [getCanUpgradeFurther_argentState]
  split_ifs with hc
  · exact Or.inl (argentMaxedB_of_le3 3 (by omega))
  · by_cases hcl : clamp l 0 4 > 3
    · refine Or.inr ?_
      by_contra hn
      exact hc ⟨hcl, by simpa using hn⟩
    · exact Or.inl (argentMaxedB_of_le3 _ (by omega))

/-- One `setArgentLevel` call preserves the at-most-two-maxed
invariant, for every category string and level. -/
lemma step_preserves (x y z l : Int) (c : String) (h : numMaxed3 x y z ≤ 2) :
    ∃ a b d, (setArgentLevel (argentState x y z) c l).1 = argentState a b d
      ∧ numMaxed3 a b d ≤ 2 := by
  by_cases h1 : c = "healthCapacity"
  · subst h1
    rw [setArgentLevel_health]
    exact ⟨_, y, z, rfl, numMaxed3_update_le x y z _ h
      (setLevel_new_count_cases x y z l)⟩
  by_cases h2 : c = "armorCapacity"
  · subst h2
    rw [setArgentLevel_armor]
    refine ⟨x, _, z, rfl, ?_⟩
    rw [numMaxed3_swap12]
    refine numMaxed3_update_le y x z _ (by rw [← numMaxed3_swap12]; exact h) ?_
    rcases setLevel_new_count_cases x y z l with hB | hle
    · exact Or.inl hB
    · exact Or.inr (by rw [← numMaxed3_swap12]; exact hle)
  by_cases h3 : c = "ammoCapacity"
  · subst h3
    rw [setArgentLevel_ammo]
    refine ⟨x, y, _, rfl, ?_⟩
    rw [numMaxed3_swap13]
    refine numMaxed3_update_le z y x _ (by rw [← numMaxed3_swap13]; exact h) ?_
    rcases setLevel_new_count_cases x y z l with hB | hle
    · exact Or.inl hB
    · exact Or.inr (by rw [← numMaxed3_swap13]; exact hle)
  · rw [setArgentLevel_other x y z l c h1 h2 h3]
    exact ⟨x, y, z, rfl, h⟩

/-- Every state reachable by `setArgentLevel` calls from the default
Argent module is an `argentState` with at most two maxed categories. -/
lemma argentReach_rep (ops : List (String × Int)) :
    ∃ x y z, argentReach ops = argentState x y z ∧ numMaxed3 x y z ≤ 2 := by
  suffices h : ∀ (os : List (String × Int)) (x y z : Int),
      numMaxed3 x y z ≤ 2 → ∃ a b d,
      os.foldl (fun s p => (setArgentLevel s p.1 p.2).1) (argentState x y z)
        = argentState a b d ∧ numMaxed3 a b d ≤ 2 by
    have h0 := h ops 0 0 0 (by decide)
    simpa [argentReach,
      show argentCellUpgradesInit = argentState 0 0 0 from rfl] using h0
  intro os
  induction os with
  | nil => exact fun x y z h => ⟨x, y, z, rfl, h⟩
  | cons p ps ih =>
    intro x y z h
    rw [List.foldl_cons]
    obtain ⟨a, b, d, hstep, hinv⟩ := step_preserves x y z p.2 p.1 h
    rw [hstep]
    exact ih a b d hinv

/-- Two maxed categories force the third condition. -/
lemma numMaxed3_two_true (x y z : Int)
    (hy : argentMaxedB (some y) = true)
    (hz : argentMaxedB (some z) = true) : numMaxed3 x y z > 1 := by
  rw [numMaxed3, hy, hz]
  simp only [eq_self_iff_true, if_true]
  split_ifs <;> omega

/-- C1 (amended).  Argent upgrade-limit invariant: for every sequence
of `setArgentLevel` calls from the default state, at no point do ALL
THREE categories simultaneously hold count 4; any call whose requested
level would bring a THIRD category to 4 (both other categories already
maxed) instead applies and returns 3.  (The code allows a second
category to reach 4 — see the counterexample theorem.) -/
theorem argent_upgrade_limit (ops : List (String × Int)) :
    (¬ (maxedIn (argentReach ops) "healthCapacity"
        ∧ maxedIn (argentReach ops) "armorCapacity"
        ∧ maxedIn (argentReach ops) "ammoCapacity"))
    ∧ ∀ (cat : String) (lv : Int),
        cat ∈ ["healthCapacity", "armorCapacity", "ammoCapacity"] →
        (4 : Int) ≤ lv →
        (∀ other ∈ ["healthCapacity", "armorCapacity", "ammoCapacity"],
          other ≠ cat → maxedIn (argentReach ops) other) →
        (setArgentLevel (argentReach ops) cat lv).2 = 3
        ∧ countIn (setArgentLevel (argentReach ops) cat lv).1 cat = some 3 := by
  obtain ⟨x, y, z, hrep, hinv⟩ := argentReach_rep ops
  rw [hrep]
  constructor
  · rintro ⟨hh, ha, hm⟩
    have hx : argentMaxedB (some x) = true := hh
    have hy : argentMaxedB (some y) = true := ha
    have hz : argentMaxedB (some z) = true := hm
    rw [numMaxed3, hx, hy, hz] at hinv
    simp at hinv
  · intro cat lv hcat hlv hothers
    have hcond : ∀ _ : numMaxed3 x y z > 1,
        (if clamp lv 0 4 > 3 ∧ ¬ getCanUpgradeFurther (argentState x y z)
          then (3 : Int) else clamp lv 0 4) = 3 := by
      intro h2
      rw [getCanUpgradeFurther_argentState, if_pos]
      refine ⟨by simp only [clamp]; omega, ?_⟩
      simp only [decide_eq_true_eq]
      omega
    rcases show cat = "healthCapacity" ∨ cat = "armorCapacity"
        ∨ cat = "ammoCapacity" by simpa using hcat with h1 | h2 | h3
    · subst h1
      have ha : argentMaxedB (some y) = true :=
        hothers "armorCapacity" (by simp) (by decide)
      have hm : argentMaxedB (some z) = true :=
        hothers "ammoCapacity" (by simp) (by decide)
      have hnum : numMaxed3 x y z > 1 := numMaxed3_two_true x y z ha hm
      rw [setArgentLevel_health, hcond hnum]
      exact ⟨rfl, countIn_argentState_health 3 y z⟩
    · subst h2
      have hl : argentMaxedB (some x) = true :=
        hothers "healthCapacity" (by simp) (by decide)
      have hm : argentMaxedB (some z) = true :=
        hothers "ammoCapacity" (by simp) (by decide)
      have hnum : numMaxed3 x y z > 1 := by
        rw [numMaxed3_swap12]
        exact numMaxed3_two_true y x z hl hm
      rw [setArgentLevel_armor, hcond hnum]
      exact ⟨rfl, countIn_argentState_armor x 3 z⟩
    · subst h3
      have hl : argentMaxedB (some x) = true :=
        hothers "healthCapacity" (by simp) (by decide)
      have hm : argentMaxedB (some y) = true :=
        hothers "armorCapacity" (by simp) (by decide)
      have hnum : numMaxed3 x y z > 1 := by
        rw [numMaxed3_swap13]
        exact numMaxed3_two_true z y x hm hl
      rw [setArgentLevel_ammo, hcond hnum]
      exact ⟨rfl, countIn_argentState_ammo x y 3⟩

/-- Witness for C1 (amended): after maxing health and armor, a request
for ammo level 4 applies and returns 3, and not all three are maxed. -/
theorem argent_upgrade_limit_witness :
    ((setArgentLevel
        (argentReach [("healthCapacity", 4), ("armorCapacity", 4)])
        "ammoCapacity" 4).2 = 3
      ∧ countIn (setArgentLevel
          (argentReach [("healthCapacity", 4), ("armorCapacity", 4)])
          "ammoCapacity" 4).1 "ammoCapacity" = some 3)
    ∧ ¬ (maxedIn (argentReach [("healthCapacity", 4), ("armorCapacity", 4)])
          "healthCapacity"
        ∧ maxedIn (argentReach [("healthCapacity", 4), ("armorCapacity", 4)])
          "armorCapacity"
        ∧ maxedIn (argentReach [("healthCapacity", 4), ("armorCapacity", 4)])
          "ammoCapacity") := by
  have h := argent_upgrade_limit [("healthCapacity", 4), ("armorCapacity", 4)]
  exact ⟨h.2 "ammoCapacity" 4 (by decide) (by omega) (by decide), h.1⟩

/-- Counterexample to C1 as stated: from the default state, maxing
health and then requesting armor level 4 RETURNS 4 and leaves BOTH
health and armor at count 4 simultaneously — the guard only refuses a
third maxed category, not a second. -/
theorem argent_second_category_reaches_four :
    (setArgentLevel (setArgentLevel argentCellUpgradesInit
        "healthCapacity" 4).1 "armorCapacity" 4).2 = 4
    ∧ countIn (setArgentLevel (setArgentLevel argentCellUpgradesInit
        "healthCapacity" 4).1 "armorCapacity" 4).1 "healthCapacity" = some 4
    ∧ countIn (setArgentLevel (setArgentLevel argentCellUpgradesInit
        "healthCapacity" 4).1 "armorCapacity" 4).1 "armorCapacity" = some 4 := by
  decide
